import Mathlib

/-!
Verification of the BlindSpot real-time awareness core: the navigation state
machine (`navigation.py`), the hazard-detection pipeline state (`obstacle.py`)
and the announcement arbiter callbacks (`agent.py`), shallowly embedded over ℚ.
The transcendental geometry (haversine distance, great-circle bearing) is kept
abstract as oracle parameters `distFn` / `bearingFn`; everything downstream of
those values is translated directly from the source.
-/

namespace BlindSpot

/-- Left-to-right, non-overlapping replacement of `old` by `new` in a
character list, with fuel for structural recursion (fuel `≥` the list length
suffices, since every step consumes at least one character). -/
def replaceCharsAux : ℕ → List Char → List Char → List Char → List Char
  | 0, s, _, _ => s
  | fuel + 1, s, old, new =>
    match s with
    | [] => []
    | c :: rest =>
      if old ≠ [] ∧ old.isPrefixOf (c :: rest) then
        new ++ replaceCharsAux fuel ((c :: rest).drop old.length) old new
      else c :: replaceCharsAux fuel rest old new

/-- Python `s.replace(old, new)` for nonempty `old`: replace every
non-overlapping occurrence, scanning left to right. -/
def pyReplace (s old new : String) : String :=
  ⟨replaceCharsAux s.data.length s.data old.data new.data⟩

/-- Python `s.strip()`: drop leading and trailing whitespace. -/
def pyStrip (s : String) : String :=
  ⟨((s.data.dropWhile Char.isWhitespace).reverse.dropWhile
      Char.isWhitespace).reverse⟩

/-- Python float modulo `x % m` for a positive modulus: the representative of
`x` in `[0, m)`. -/
def pymod (x m : ℚ) : ℚ := x - m * ⌊x / m⌋

/-- Python `int(q)`: truncation toward zero. -/
def pyint (q : ℚ) : ℤ := if q < 0 then ⌈q⌉ else ⌊q⌋

/-- `ROUTE_START_GRACE_SECONDS` from navigation.py. -/
def ROUTE_START_GRACE_SECONDS : ℚ := 18

/-- `TURN_ANNOUNCEMENT_THRESHOLD` (early-warning distance, meters). -/
def TURN_ANNOUNCEMENT_THRESHOLD : ℚ := 45

/-- `TURN_NOW_THRESHOLD` (imperative distance, meters). -/
def TURN_NOW_THRESHOLD : ℚ := 12

/-- A latitude/longitude pair, as in the route dictionaries. -/
structure LatLng where
  lat : ℚ
  lng : ℚ
deriving Repr, DecidableEq

/-- One route step: the fields of the Google-Maps step dictionary that the
navigation session reads (`html_instructions` defaulting to "Proceed", and the
optional `end_location`). -/
structure Step where
  html_instructions : Option String
  end_location : Option LatLng
deriving Repr, DecidableEq

/-- One route leg: the session reads only its `steps` list. -/
structure Leg where
  steps : List Step
deriving Repr, DecidableEq

/-- A route: the session reads only its `legs` list. -/
structure Route where
  legs : List Leg
deriving Repr, DecidableEq

/-- `_bearing_to_cardinal`: 8-point compass label of a bearing. -/
def bearingToCardinal (bearing : ℚ) : String :=
  if bearing < 22.5 ∨ bearing ≥ 337.5 then "north"
  else if bearing < 67.5 then "north-east"
  else if bearing < 112.5 then "east"
  else if bearing < 157.5 then "south-east"
  else if bearing < 202.5 then "south"
  else if bearing < 247.5 then "south-west"
  else if bearing < 292.5 then "west"
  else "north-west"

/-- The signed heading delta `(bearing - heading + 540) % 360 - 180` computed
by `_relative_direction`. -/
def headingDelta (userHeading targetBearing : ℚ) : ℚ :=
  pymod (targetBearing - userHeading + 540) 360 - 180

/-- `_relative_direction`: classify the heading delta into
forward / right / left / behind. -/
def relativeDirection (userHeading targetBearing : ℚ) : String :=
  let diff := headingDelta userHeading targetBearing
  if -45 ≤ diff ∧ diff ≤ 45 then "forward"
  else if 45 < diff ∧ diff ≤ 135 then "right"
  else if -135 ≤ diff ∧ diff < -45 then "left"
  else "behind"

/-- The remainder of `s` after the first occurrence of `sep`
(Python `s.split(sep, 1)[1]`), or `none` when `sep` does not occur. -/
def splitRemainder (s sep : String) : Option String :=
  match s.splitOn sep with
  | [] => none
  | [_] => none
  | _ :: rest => some (String.intercalate sep rest)

/-- The separator loop at the end of `_rewrite_instruction_with_heading`:
append the street-name suffix found after " onto " / " toward " / " on ". -/
def appendStreetSuffix (headPhrase raw : String) : String :=
  match splitRemainder raw (" onto ") with
  | some r => headPhrase ++ " onto " ++ pyStrip r
  | none =>
    match splitRemainder raw (" toward ") with
    | some r => headPhrase ++ " toward " ++ pyStrip r
    | none =>
      match splitRemainder raw (" on ") with
      | some r => headPhrase ++ " on " ++ pyStrip r
      | none => headPhrase

/-- `_rewrite_instruction_with_heading`: rewrite the instruction as a
heading-relative phrase when both an end location and a heading are present.
The great-circle bearing computation is the oracle `bearingFn`. -/
def rewriteInstructionWithHeading (bearingFn : ℚ → ℚ → ℚ → ℚ → ℚ)
    (rawInstruction : String) (userHeading : Option ℚ) (lat lng : ℚ)
    (nextStep : Step) : String :=
  match nextStep.end_location, userHeading with
  | some endLoc, some heading =>
      let targetBearing := bearingFn lat lng endLoc.lat endLoc.lng
      let relative := relativeDirection heading targetBearing
      let cardinal := bearingToCardinal targetBearing
      let headPhrase :=
        if relative = "forward" then "Head forward, that\x27s " ++ cardinal
        else if relative = "left" then "Head left, that\x27s " ++ cardinal
        else if relative = "right" then "Head right, that\x27s " ++ cardinal
        else "Head behind you, that\x27s " ++ cardinal
      appendStreetSuffix headPhrase rawInstruction
  | _, _ => rawInstruction

/-- `_clean_instruction`: strip the four markup tags, in source order. -/
def cleanInstruction (html : String) : String :=
  pyReplace (pyReplace (pyReplace (pyReplace html ("<b>") "") ("</b>") "")
    ("<div style=\x22font-size:0.9em\x22>") "") ("</div>") ""

/-- `NavigationSession` mutable state. -/
structure NavigationSession where
  active_route : Option Route
  current_step_index : ℕ
  destination : String
  last_instruction_spoken_index : ℤ
  route_started_at : Option ℚ
deriving Repr, DecidableEq

/-- `NavigationSession.start_route` (the clock reading is passed in). -/
def start_route (route : Route) (destination : String) (now : ℚ) :
    NavigationSession :=
  { active_route := some route
    current_step_index := 0
    destination := destination
    last_instruction_spoken_index := -1
    route_started_at := some now }

/-- `NavigationSession.stop_navigation`. -/
def stop_navigation (_s : NavigationSession) : NavigationSession :=
  { active_route := none
    current_step_index := 0
    destination := ""
    last_instruction_spoken_index := -1
    route_started_at := none }

/-- `NavigationSession.is_in_initial_nav_phase`. -/
def is_in_initial_nav_phase (s : NavigationSession) (now : ℚ) : Bool :=
  match s.active_route, s.route_started_at with
  | some _, some t0 => decide (now - t0 < ROUTE_START_GRACE_SECONDS)
  | _, _ => false

/-- Lines 178–182 of navigation.py: clean the next step\x27s raw instruction
and rewrite it with the compass heading. -/
def stepInstructionText (bearingFn : ℚ → ℚ → ℚ → ℚ → ℚ) (nextStep : Step)
    (lat lng : ℚ) (heading : Option ℚ) : String :=
  rewriteInstructionWithHeading bearingFn
    (cleanInstruction (nextStep.html_instructions.getD ("Proceed")))
    heading lat lng nextStep

/-- `NavigationSession.update_location` after the grace-window check: the
threshold logic of lines 144–196.  `distFn` is the haversine oracle. -/
def updateLocationBody (distFn bearingFn : ℚ → ℚ → ℚ → ℚ → ℚ)
    (s : NavigationSession) (route : Route) (lat lng : ℚ)
    (heading : Option ℚ) : NavigationSession × Option String :=
  match route.legs with
  | [] => (s, none)
  | leg0 :: _ =>
    let steps := leg0.steps
    if s.current_step_index ≥ steps.length then (s, none)
    else
      let currentStep := steps.getD s.current_step_index ⟨none, none⟩
      match currentStep.end_location with
      | none => (s, none)
      | some endLocation =>
        let dist := distFn lat lng endLocation.lat endLocation.lng
        let nextStepIndex := s.current_step_index + 1
        if nextStepIndex ≥ steps.length then
          if s.last_instruction_spoken_index < (s.current_step_index : ℤ) then
            ({ s with last_instruction_spoken_index :=
                  (s.current_step_index : ℤ) },
              some ("You have arrived at your destination: " ++ s.destination))
          else (s, none)
        else
          let nextStep := steps.getD nextStepIndex ⟨none, none⟩
          let instructionText := stepInstructionText bearingFn nextStep lat lng heading
          if dist < TURN_NOW_THRESHOLD then
            if s.last_instruction_spoken_index ≤ (nextStepIndex : ℤ) then
              ({ s with last_instruction_spoken_index := (nextStepIndex : ℤ)
                        current_step_index := nextStepIndex },
                some (instructionText ++ " Now."))
            else (s, none)
          else if dist < TURN_ANNOUNCEMENT_THRESHOLD then
            if s.last_instruction_spoken_index < (nextStepIndex : ℤ) then
              ({ s with last_instruction_spoken_index := (nextStepIndex : ℤ) },
                some ("In " ++ toString (pyint dist) ++ " meters, " ++
                  instructionText))
            else (s, none)
          else (s, none)

/-- `NavigationSession.update_location`: guard on an active route and the
start-of-route grace window, then the threshold logic. Returns the updated
session and the instruction to speak, if any. -/
def updateLocation (distFn bearingFn : ℚ → ℚ → ℚ → ℚ → ℚ)
    (s : NavigationSession) (now lat lng : ℚ) (heading : Option ℚ) :
    NavigationSession × Option String :=
  match s.active_route with
  | none => (s, none)
  | some route =>
    let inGrace : Bool :=
      match s.route_started_at with
      | some t0 => decide (now - t0 < ROUTE_START_GRACE_SECONDS)
      | none => false
    if inGrace then (s, none)
    else updateLocationBody distFn bearingFn s route lat lng heading

/-- One GPS sample delivered to `update_location`. -/
structure Sample where
  now : ℚ
  lat : ℚ
  lng : ℚ
  heading : Option ℚ
deriving Repr, DecidableEq

/-- Process a list of samples in order, collecting the per-sample outputs. -/
def runSamples (distFn bearingFn : ℚ → ℚ → ℚ → ℚ → ℚ)
    (s : NavigationSession) :
    List Sample → NavigationSession × List (Option String)
  | [] => (s, [])
  | smp :: rest =>
    let step1 := updateLocation distFn bearingFn s smp.now smp.lat smp.lng smp.heading
    let restRun := runSamples distFn bearingFn step1.1 rest
    (restRun.1, step1.2 :: restRun.2)

/-! ## Hazard-detection pipeline state (obstacle.py) -/

/-- A hazard event emitted by the worker loop: `on_obstacle(description,
is_new)` or `on_clear()`. -/
inductive HazardEvent where
  | obstacle (description : String) (isNew : Bool)
  | clear
deriving Repr, DecidableEq

/-- `ObstacleProcessor` mutable state: the running flag, the bounded frame
queue (items are `("image/jpeg", b64)` pairs; `none` is the stop sentinel),
the last-reported presence flag and the frames-processed counter. -/
structure ObstacleState where
  running : Bool
  queue : List (Option (String × String))
  lastObstacle : Bool
  framesProcessed : ℕ
deriving Repr, DecidableEq

/-- The base64 cleanup at the top of `put_frame`:
`(data or "").strip().replace("\n", "").replace("\r", "")`. -/
def cleanB64 (data : String) : String :=
  pyReplace (pyReplace (pyStrip data) ("\n") "") ("\x0d") ""

/-- `ObstacleProcessor.put_frame`: non-blocking submit. When the capacity-2
queue is full, the oldest pending frame is removed first; a `put_nowait` that
would still overflow is swallowed by the `except` clause. -/
def put_frame (s : ObstacleState) (data : String) : ObstacleState :=
  if s.running = false then s
  else
    let b64 := cleanB64 data
    if b64 = "" then s
    else
      let q1 := if s.queue.length ≥ 2 then s.queue.tail else s.queue
      if q1.length ≥ 2 then { s with queue := q1 }
      else { s with queue := q1 ++ [some ("image/jpeg", b64)] }

/-- `ObstacleProcessor.start`: sets the running flag (the worker task is
outside the state model). -/
def start (s : ObstacleState) : ObstacleState := { s with running := true }

/-- `ObstacleProcessor.stop`: clears the running flag and enqueues the `none`
sentinel when the queue has space (`QueueFull` is swallowed). Nothing else in
the state is touched. -/
def stop (s : ObstacleState) : ObstacleState :=
  let s1 := { s with running := false }
  if s1.queue.length ≥ 2 then s1
  else { s1 with queue := s1.queue ++ [none] }

/-- One iteration of `ObstacleProcessor._loop` on a successfully decoded
frame, abstracted by its detection result (`some description` when the
detector found an obstacle in the path region, `none` otherwise): increment
the counter, then either emit `on_obstacle(desc, is_new)` with
`is_new = not lastObstacle`, or set the presence flag to false and emit
`on_clear()`. -/
def loopStep (s : ObstacleState) (result : Option String) :
    ObstacleState × HazardEvent :=
  let s1 := { s with framesProcessed := s.framesProcessed + 1 }
  match result with
  | some desc =>
      ({ s1 with lastObstacle := true },
        HazardEvent.obstacle desc (!s.lastObstacle))
  | none =>
      ({ s1 with lastObstacle := false }, HazardEvent.clear)

/-- Run the worker loop over a list of detection results, collecting the
emitted hazard events in order. -/
def runLoop (s : ObstacleState) :
    List (Option String) → ObstacleState × List HazardEvent
  | [] => (s, [])
  | r :: rs =>
    let st := loopStep s r
    let rest := runLoop st.1 rs
    (rest.1, st.2 :: rest.2)

/-! ## Announcement arbiter callbacks (agent.py) -/

/-- The JSON payload published on the obstacle data side-channel:
`{"detected": bool, "description": string}`. -/
structure ObstaclePayload where
  detected : Bool
  description : String
deriving Repr, DecidableEq

/-- `_on_obstacle_detected`: always publish `{detected: true, description}`;
speak `OBSTACLE_PHRASE_TEMPLATE` only when the hazard is new and the
navigation session is outside its startup grace phase. -/
def onObstacleDetected (session : NavigationSession) (now : ℚ)
    (description : String) (isNew : Bool) : ObstaclePayload × Option String :=
  (⟨true, description⟩,
    if isNew && !(is_in_initial_nav_phase session now) then
      some ("Obstacle ahead: " ++ description)
    else none)

/-- `_on_obstacle_clear`: publish `{detected: false, description: ""}` and
never speak. -/
def onObstacleClear : ObstaclePayload × Option String :=
  (⟨false, ""⟩, none)

/-! ## Branch characterizations of `update_location` -/

/-- Far branch: beyond the early-warning threshold nothing is announced and
the session is unchanged. -/
lemma updateLocation_far_case (distFn bearingFn : ℚ → ℚ → ℚ → ℚ → ℚ)
    (leg0 : Leg) (restLegs : List Leg) (dest : String)
    (t0 now lat lng : ℚ) (heading : Option ℚ) (c : ℕ) (last : ℤ) (e0 : LatLng)
    (hgrace : ¬ now - t0 < ROUTE_START_GRACE_SECONDS)
    (hc : c + 1 < leg0.steps.length)
    (hcur : (leg0.steps.getD c ⟨none, none⟩).end_location = some e0)
    (hd : TURN_ANNOUNCEMENT_THRESHOLD ≤ distFn lat lng e0.lat e0.lng) :
    updateLocation distFn bearingFn
        ⟨some ⟨leg0 :: restLegs⟩, c, dest, last, some t0⟩ now lat lng heading =
      (⟨some ⟨leg0 :: restLegs⟩, c, dest, last, some t0⟩, none) := by
  have hd1 : ¬ distFn lat lng e0.lat e0.lng < TURN_NOW_THRESHOLD := by
    simp only [TURN_NOW_THRESHOLD, TURN_ANNOUNCEMENT_THRESHOLD] at hd ⊢
    linarith
  have hd2 : ¬ distFn lat lng e0.lat e0.lng < TURN_ANNOUNCEMENT_THRESHOLD := by
    linarith
  have hlen : ¬ c ≥ leg0.steps.length := by omega
  have hlen2 : ¬ c + 1 ≥ leg0.steps.length := by omega
  have hcur2 : ((leg0.steps[c]?).getD ⟨none, none⟩).end_location = some e0 := by
    simpa [List.getD] using hcur
  simp [updateLocation, updateLocationBody, hgrace, hlen, hlen2, hcur2, hd1, hd2]

/-- Early-warning branch: inside `[12, 45)` with the next step not yet
announced, speak "In {int(d)} meters, …", record the spoken index, and leave
the cursor where it is. -/
lemma updateLocation_warn_case (distFn bearingFn : ℚ → ℚ → ℚ → ℚ → ℚ)
    (leg0 : Leg) (restLegs : List Leg) (dest : String)
    (t0 now lat lng : ℚ) (heading : Option ℚ) (c : ℕ) (last : ℤ) (e0 : LatLng)
    (hgrace : ¬ now - t0 < ROUTE_START_GRACE_SECONDS)
    (hc : c + 1 < leg0.steps.length)
    (hcur : (leg0.steps.getD c ⟨none, none⟩).end_location = some e0)
    (hd1 : ¬ distFn lat lng e0.lat e0.lng < TURN_NOW_THRESHOLD)
    (hd2 : distFn lat lng e0.lat e0.lng < TURN_ANNOUNCEMENT_THRESHOLD)
    (hlast : last < ((c : ℤ) + 1)) :
    updateLocation distFn bearingFn
        ⟨some ⟨leg0 :: restLegs⟩, c, dest, last, some t0⟩ now lat lng heading =
      (⟨some ⟨leg0 :: restLegs⟩, c, dest, ((c : ℤ) + 1), some t0⟩,
        some ("In " ++ toString (pyint (distFn lat lng e0.lat e0.lng)) ++
          " meters, " ++ stepInstructionText bearingFn
            (leg0.steps.getD (c + 1) ⟨none, none⟩) lat lng heading)) := by
  have hlen : ¬ c ≥ leg0.steps.length := by omega
  have hlen2 : ¬ c + 1 ≥ leg0.steps.length := by omega
  have hcur2 : ((leg0.steps[c]?).getD ⟨none, none⟩).end_location = some e0 := by
    simpa [List.getD] using hcur
  simp [updateLocation, updateLocationBody, hgrace, hlen, hlen2, hcur2,
    hd1, hd2, hlast]

/-- Repeat of the early-warning band after the warning was spoken: silent and
unchanged. -/
lemma updateLocation_warn_repeat_case (distFn bearingFn : ℚ → ℚ → ℚ → ℚ → ℚ)
    (leg0 : Leg) (restLegs : List Leg) (dest : String)
    (t0 now lat lng : ℚ) (heading : Option ℚ) (c : ℕ) (last : ℤ) (e0 : LatLng)
    (hgrace : ¬ now - t0 < ROUTE_START_GRACE_SECONDS)
    (hc : c + 1 < leg0.steps.length)
    (hcur : (leg0.steps.getD c ⟨none, none⟩).end_location = some e0)
    (hd1 : ¬ distFn lat lng e0.lat e0.lng < TURN_NOW_THRESHOLD)
    (hd2 : distFn lat lng e0.lat e0.lng < TURN_ANNOUNCEMENT_THRESHOLD)
    (hlast : ¬ last < ((c : ℤ) + 1)) :
    updateLocation distFn bearingFn
        ⟨some ⟨leg0 :: restLegs⟩, c, dest, last, some t0⟩ now lat lng heading =
      (⟨some ⟨leg0 :: restLegs⟩, c, dest, last, some t0⟩, none) := by
  have hlen : ¬ c ≥ leg0.steps.length := by omega
  have hlen2 : ¬ c + 1 ≥ leg0.steps.length := by omega
  have hcur2 : ((leg0.steps[c]?).getD ⟨none, none⟩).end_location = some e0 := by
    simpa [List.getD] using hcur
  simp [updateLocation, updateLocationBody, hgrace, hlen, hlen2, hcur2,
    hd1, hd2, hlast]

/-- "Now" branch: closer than 12 m with `lastSpokenIndex ≤ nextIndex`, speak
"{instruction} Now.", record the spoken index and advance the cursor. -/
lemma updateLocation_now_case (distFn bearingFn : ℚ → ℚ → ℚ → ℚ → ℚ)
    (leg0 : Leg) (restLegs : List Leg) (dest : String)
    (t0 now lat lng : ℚ) (heading : Option ℚ) (c : ℕ) (last : ℤ) (e0 : LatLng)
    (hgrace : ¬ now - t0 < ROUTE_START_GRACE_SECONDS)
    (hc : c + 1 < leg0.steps.length)
    (hcur : (leg0.steps.getD c ⟨none, none⟩).end_location = some e0)
    (hd : distFn lat lng e0.lat e0.lng < TURN_NOW_THRESHOLD)
    (hlast : last ≤ ((c : ℤ) + 1)) :
    updateLocation distFn bearingFn
        ⟨some ⟨leg0 :: restLegs⟩, c, dest, last, some t0⟩ now lat lng heading =
      (⟨some ⟨leg0 :: restLegs⟩, c + 1, dest, ((c : ℤ) + 1), some t0⟩,
        some (stepInstructionText bearingFn
            (leg0.steps.getD (c + 1) ⟨none, none⟩) lat lng heading ++
          " Now.")) := by
  have hlen : ¬ c ≥ leg0.steps.length := by omega
  have hlen2 : ¬ c + 1 ≥ leg0.steps.length := by omega
  have hcur2 : ((leg0.steps[c]?).getD ⟨none, none⟩).end_location = some e0 := by
    simpa [List.getD] using hcur
  simp [updateLocation, updateLocationBody, hgrace, hlen, hlen2, hcur2,
    hd, hlast]

/-! ## Theorems -/

/-- C2: while a route is active and fewer than 18 seconds have elapsed since
`start_route`, `update_location` returns none and leaves the session
unchanged, whatever the sample and its distance to any step. -/
theorem grace_window_returns_none (distFn bearingFn : ℚ → ℚ → ℚ → ℚ → ℚ)
    (s : NavigationSession) (now lat lng t0 : ℚ) (heading : Option ℚ)
    (hactive : s.active_route.isSome = true)
    (hstart : s.route_started_at = some t0)
    (helapsed : now - t0 < ROUTE_START_GRACE_SECONDS) :
    updateLocation distFn bearingFn s now lat lng heading = (s, none) := by
  obtain ⟨route, hr⟩ := Option.isSome_iff_exists.mp hactive
  simp [updateLocation, hr, hstart, helapsed]

/-- Witness for C2 at a concrete just-started route and sample. -/
theorem grace_window_returns_none_witness :
    updateLocation (fun _ _ _ _ => 0) (fun _ _ _ _ => 0)
        (start_route ⟨[⟨[⟨some "s0", some ⟨0, 0⟩⟩]⟩]⟩ "Home" 0) 5 1 2 none =
      (start_route ⟨[⟨[⟨some "s0", some ⟨0, 0⟩⟩]⟩]⟩ "Home" 0, none) :=
  grace_window_returns_none (fun _ _ _ _ => 0) (fun _ _ _ _ => 0)
    (start_route ⟨[⟨[⟨some "s0", some ⟨0, 0⟩⟩]⟩]⟩ "Home" 0) 5 1 2 0 none
    (by decide) rfl (by norm_num [ROUTE_START_GRACE_SECONDS])

/-- C3 counterexample: starting from a pipeline whose last-presence flag is
false, a run of two no-detection frames emits `on_clear` twice — the loop
calls `on_clear` on every clear frame, not only on a present-to-clear
transition. -/
theorem on_clear_transition_counterexample :
    (⟨true, [], false, 0⟩ : ObstacleState).lastObstacle = false ∧
    (runLoop ⟨true, [], false, 0⟩ [none, none]).2 =
      [HazardEvent.clear, HazardEvent.clear] := by
  exact ⟨rfl, rfl⟩

/-- C3 (amended): the worker loop invokes `on_clear` on every processed
no-detection frame regardless of the last-presence flag, sets the flag to
false, and a run of k consecutive no-detection frames produces exactly k
`on_clear` calls. -/
theorem on_clear_every_clear_frame (s : ObstacleState) (k : ℕ) :
    (loopStep s none).2 = HazardEvent.clear ∧
    (loopStep s none).1.lastObstacle = false ∧
    (runLoop s (List.replicate k none)).2 =
      List.replicate k HazardEvent.clear := by
  refine ⟨rfl, rfl, ?_⟩
  induction k generalizing s with
  | zero => rfl
  | succ n ih => simp [List.replicate_succ, runLoop, loopStep, ih]

/-- C4: `put_frame` keeps the pending-frame queue within capacity 2, and when
called with a usable frame while 2 frames are pending it evicts the oldest
and enqueues the new frame at the back — the newest frame is never the one
dropped. -/
theorem put_frame_bounded_drop_oldest (s : ObstacleState) (data : String)
    (hlen : s.queue.length ≤ 2) :
    (put_frame s data).queue.length ≤ 2 ∧
    (s.running = true → cleanB64 data ≠ "" → s.queue.length = 2 →
      (put_frame s data).queue =
        s.queue.tail ++ [some ("image/jpeg", cleanB64 data)]) := by
  constructor
  · simp only [put_frame]
    have htail : s.queue.tail.length = s.queue.length - 1 := List.length_tail _
    split_ifs <;> simp_all [List.length_append] <;> omega
  · intro hrun hdata h2
    have htail : s.queue.tail.length = 1 := by
      simp [List.length_tail, h2]
    simp [put_frame, hrun, hdata, h2, htail]

/-- Witness for C4: submitting a third frame while two are pending keeps the
queue at two items, dropping the oldest and keeping the newest. -/
theorem put_frame_bounded_drop_oldest_witness :
    (put_frame ⟨true, [some ("image/jpeg", "aa"), some ("image/jpeg", "bb")],
        false, 0⟩ "cc").queue.length ≤ 2 ∧
    (put_frame ⟨true, [some ("image/jpeg", "aa"), some ("image/jpeg", "bb")],
        false, 0⟩ "cc").queue =
      [some ("image/jpeg", "bb"), some ("image/jpeg", "cc")] := by
  have h := put_frame_bounded_drop_oldest
    ⟨true, [some ("image/jpeg", "aa"), some ("image/jpeg", "bb")], false, 0⟩
    "cc" (by decide)
  refine ⟨h.1, ?_⟩
  rw [h.2 rfl (by decide) rfl]
  rfl

/-- C6 counterexample: a pipeline stopped after processing 5 frames with a
remembered hazard keeps both the counter and the presence flag through
`stop()` and a subsequent `start()` — they are not reset. -/
theorem stop_reset_counterexample :
    ¬ ((start (stop ⟨true, [], true, 5⟩)).framesProcessed = 0 ∧
       (start (stop ⟨true, [], true, 5⟩)).lastObstacle = false) := by
  decide

/-- C6 (amended): `stop()` clears the running flag and enqueues the stop
sentinel when the queue has space, but does not reset the frames-processed
counter or the last-presence flag; a subsequent `start()` resumes with the
previous counter value and remembered hazard flag. -/
theorem stop_preserves_counters (s : ObstacleState) :
    (stop s).running = false ∧
    (stop s).framesProcessed = s.framesProcessed ∧
    (stop s).lastObstacle = s.lastObstacle ∧
    (s.queue.length < 2 → (stop s).queue = s.queue ++ [none]) ∧
    (start (stop s)).running = true ∧
    (start (stop s)).framesProcessed = s.framesProcessed ∧
    (start (stop s)).lastObstacle = s.lastObstacle := by
  by_cases h : s.queue.length ≥ 2 <;>
    simp [stop, start, h]

/-- Witness for C6 (amended) at a concrete stopped pipeline. -/
theorem stop_preserves_counters_witness :
    (stop ⟨true, [], true, 5⟩).running = false ∧
    (stop ⟨true, [], true, 5⟩).framesProcessed = 5 ∧
    (stop ⟨true, [], true, 5⟩).queue = [none] ∧
    (start (stop ⟨true, [], true, 5⟩)).lastObstacle = true := by
  have h := stop_preserves_counters ⟨true, [], true, 5⟩
  exact ⟨h.1, h.2.1, h.2.2.2.1 (by decide), h.2.2.2.2.2.2⟩

/-- C9: every hazard event is published on the data side-channel as
`{detected, description}` unconditionally (also during the navigation grace
window); speech is produced exactly for a presence event that is new while
the session is outside its startup phase; clear events are published with
`{detected: false}` and never spoken. -/
theorem hazard_arbiter_publish_and_gate (session : NavigationSession)
    (now : ℚ) (description : String) (isNew : Bool) :
    (onObstacleDetected session now description isNew).1 =
      ⟨true, description⟩ ∧
    ((onObstacleDetected session now description isNew).2 =
        some ("Obstacle ahead: " ++ description) ↔
      isNew = true ∧ is_in_initial_nav_phase session now = false) ∧
    ((onObstacleDetected session now description isNew).2 = none ∨
      (onObstacleDetected session now description isNew).2 =
        some ("Obstacle ahead: " ++ description)) ∧
    onObstacleClear = (⟨false, ""⟩, none) := by
  refine ⟨rfl, ?_, ?_, rfl⟩ <;>
    cases isNew <;>
    cases h : is_in_initial_nav_phase session now <;>
    simp [onObstacleDetected, h]

/-- C5: a post-grace sample closer than 12 m to the current step end, with
`lastSpokenIndex ≤ nextIndex` (in particular when the early warning was never
spoken, e.g. `lastSpokenIndex = -1` after skipping straight past 45 m), still
sets `lastSpokenIndex = nextIndex`, advances the cursor to `nextIndex` and
returns the "{instruction} Now." message. -/
theorem now_branch_without_prior_warning
    (distFn bearingFn : ℚ → ℚ → ℚ → ℚ → ℚ)
    (leg0 : Leg) (restLegs : List Leg) (dest : String)
    (t0 now lat lng : ℚ) (heading : Option ℚ) (c : ℕ) (last : ℤ) (e0 : LatLng)
    (hgrace : ¬ now - t0 < ROUTE_START_GRACE_SECONDS)
    (hc : c + 1 < leg0.steps.length)
    (hcur : (leg0.steps.getD c ⟨none, none⟩).end_location = some e0)
    (hd : distFn lat lng e0.lat e0.lng < TURN_NOW_THRESHOLD)
    (hlast : last ≤ ((c : ℤ) + 1)) :
    updateLocation distFn bearingFn
        ⟨some ⟨leg0 :: restLegs⟩, c, dest, last, some t0⟩ now lat lng heading =
      (⟨some ⟨leg0 :: restLegs⟩, c + 1, dest, ((c : ℤ) + 1), some t0⟩,
        some (stepInstructionText bearingFn
            (leg0.steps.getD (c + 1) ⟨none, none⟩) lat lng heading ++
          " Now.")) :=
  updateLocation_now_case distFn bearingFn leg0 restLegs dest t0 now lat lng
    heading c last e0 hgrace hc hcur hd hlast

/-- Witness for C5: a session that never spoke the early warning
(`lastSpokenIndex = -1`) jumps straight to the "Now" announcement when the
first sample inside 12 m arrives. -/
theorem now_branch_without_prior_warning_witness :
    updateLocation (fun la _ _ _ => la) (fun _ _ _ _ => 0)
        ⟨some ⟨[⟨[⟨some ("s0"), some ⟨0, 0⟩⟩,
            ⟨some ("Turn left"), some ⟨1, 1⟩⟩]⟩]⟩, 0, "Home", -1, some 0⟩
        20 10 0 none =
      (⟨some ⟨[⟨[⟨some ("s0"), some ⟨0, 0⟩⟩,
          ⟨some ("Turn left"), some ⟨1, 1⟩⟩]⟩]⟩, 1, "Home", 1, some 0⟩,
        some ("Turn left Now.")) := by
  have h := now_branch_without_prior_warning (fun la _ _ _ => la)
    (fun _ _ _ _ => 0)
    ⟨[⟨some ("s0"), some ⟨0, 0⟩⟩, ⟨some ("Turn left"), some ⟨1, 1⟩⟩]⟩ []
    "Home" 0 20 10 0 none 0 (-1) ⟨0, 0⟩
    (by norm_num [ROUTE_START_GRACE_SECONDS]) (by decide) (by decide)
    (by norm_num [TURN_NOW_THRESHOLD]) (by decide)
  exact h.trans (by decide)

/-- C7 counterexample: at distance 44.9 m the code speaks
"In 44 meters, …" (Python `int` truncation), while rounding to the nearest
integer as the claim states would give "In 45 meters, …". -/
theorem warn_rounding_counterexample :
    (updateLocation (fun _ _ _ _ => (449 : ℚ) / 10) (fun _ _ _ _ => 0)
        ⟨some ⟨[⟨[⟨some ("s0"), some ⟨0, 0⟩⟩,
            ⟨some ("Turn left"), some ⟨1, 1⟩⟩]⟩]⟩, 0, "Home", -1, some 0⟩
        20 0 0 none).2 = some ("In 44 meters, Turn left") ∧
    round ((449 : ℚ) / 10) = 45 ∧
    ("In 44 meters, Turn left" : String) ≠
      "In " ++ toString (round ((449 : ℚ) / 10)) ++ " meters, Turn left" := by
  have h := updateLocation_warn_case (fun _ _ _ _ => (449 : ℚ) / 10)
    (fun _ _ _ _ => 0)
    ⟨[⟨some ("s0"), some ⟨0, 0⟩⟩, ⟨some ("Turn left"), some ⟨1, 1⟩⟩]⟩ []
    "Home" 0 20 0 0 none 0 (-1) ⟨0, 0⟩
    (by norm_num [ROUTE_START_GRACE_SECONDS]) (by decide) (by decide)
    (by norm_num [TURN_NOW_THRESHOLD])
    (by norm_num [TURN_ANNOUNCEMENT_THRESHOLD]) (by decide)
  have hfloor : pyint ((449 : ℚ) / 10) = 44 := by
    rw [pyint, if_neg (by norm_num)]; norm_num
  have hround : round ((449 : ℚ) / 10) = 45 := by rw [round_eq]; norm_num
  refine ⟨?_, hround, ?_⟩
  · rw [congrArg Prod.snd h]
    rw [hfloor]
    decide
  · rw [hround]
    decide

/-- C7 (amended): in the early-warning band `[12, 45)` with the next step not
yet announced, the message is "In {int(d)} meters, {instruction}" where the
meter count is `d` truncated toward zero (for `d ≥ 12` this is `⌊d⌋`, not the
nearest integer), and the cursor is not advanced. -/
theorem warn_branch_truncated_meters
    (distFn bearingFn : ℚ → ℚ → ℚ → ℚ → ℚ)
    (leg0 : Leg) (restLegs : List Leg) (dest : String)
    (t0 now lat lng : ℚ) (heading : Option ℚ) (c : ℕ) (last : ℤ) (e0 : LatLng)
    (hgrace : ¬ now - t0 < ROUTE_START_GRACE_SECONDS)
    (hc : c + 1 < leg0.steps.length)
    (hcur : (leg0.steps.getD c ⟨none, none⟩).end_location = some e0)
    (hd1 : TURN_NOW_THRESHOLD ≤ distFn lat lng e0.lat e0.lng)
    (hd2 : distFn lat lng e0.lat e0.lng < TURN_ANNOUNCEMENT_THRESHOLD)
    (hlast : last < ((c : ℤ) + 1)) :
    updateLocation distFn bearingFn
        ⟨some ⟨leg0 :: restLegs⟩, c, dest, last, some t0⟩ now lat lng heading =
      (⟨some ⟨leg0 :: restLegs⟩, c, dest, ((c : ℤ) + 1), some t0⟩,
        some ("In " ++ toString (pyint (distFn lat lng e0.lat e0.lng)) ++
          " meters, " ++ stepInstructionText bearingFn
            (leg0.steps.getD (c + 1) ⟨none, none⟩) lat lng heading)) ∧
    pyint (distFn lat lng e0.lat e0.lng) = ⌊distFn lat lng e0.lat e0.lng⌋ := by
  constructor
  · exact updateLocation_warn_case distFn bearingFn leg0 restLegs dest t0 now
      lat lng heading c last e0 hgrace hc hcur (not_lt.mpr hd1) hd2 hlast
  · have h0 : ¬ distFn lat lng e0.lat e0.lng < 0 := by
      simp only [TURN_NOW_THRESHOLD] at hd1
      linarith
    simp [pyint, h0]

/-- Witness for C7 (amended) at distance 44.9 m: the spoken meter count is
the truncation 44. -/
theorem warn_branch_truncated_meters_witness :
    (updateLocation (fun _ _ _ _ => (449 : ℚ) / 10) (fun _ _ _ _ => 0)
        ⟨some ⟨[⟨[⟨some ("s0"), some ⟨0, 0⟩⟩,
            ⟨some ("Turn left"), some ⟨1, 1⟩⟩]⟩]⟩, 0, "Home", -1, some 0⟩
        20 0 0 none).2 = some ("In 44 meters, Turn left") ∧
    pyint ((449 : ℚ) / 10) = ⌊(449 : ℚ) / 10⌋ := by
  have h := warn_branch_truncated_meters (fun _ _ _ _ => (449 : ℚ) / 10)
    (fun _ _ _ _ => 0)
    ⟨[⟨some ("s0"), some ⟨0, 0⟩⟩, ⟨some ("Turn left"), some ⟨1, 1⟩⟩]⟩ []
    "Home" 0 20 0 0 none 0 (-1) ⟨0, 0⟩
    (by norm_num [ROUTE_START_GRACE_SECONDS]) (by decide) (by decide)
    (by norm_num [TURN_NOW_THRESHOLD])
    (by norm_num [TURN_ANNOUNCEMENT_THRESHOLD]) (by decide)
  refine ⟨?_, h.2⟩
  rw [congrArg Prod.snd h.1]
  have hfloor : pyint ((449 : ℚ) / 10) = 44 := by
    rw [pyint, if_neg (by norm_num)]; norm_num
  rw [hfloor]
  decide

/-- The Python float modulo by 360 is nonnegative. -/
lemma pymod_360_nonneg (x : ℚ) : 0 ≤ pymod x 360 := by
  unfold pymod
  have h1 : ((⌊x / 360⌋ : ℤ) : ℚ) ≤ x / 360 := Int.floor_le _
  have h2 : (360 : ℚ) * (x / 360) = x := by field_simp
  nlinarith

/-- The Python float modulo by 360 is below 360. -/
lemma pymod_360_lt (x : ℚ) : pymod x 360 < 360 := by
  unfold pymod
  have h1 : x / 360 < (⌊x / 360⌋ : ℤ) + 1 := Int.lt_floor_add_one _
  have h2 : (360 : ℚ) * (x / 360) = x := by field_simp
  nlinarith

/-- The heading delta always lands in `[-180, 180)`. -/
lemma headingDelta_mem (h b : ℚ) :
    -180 ≤ headingDelta h b ∧ headingDelta h b < 180 := by
  unfold headingDelta
  constructor
  · have := pymod_360_nonneg (b - h + 540)
    linarith
  · have := pymod_360_lt (b - h + 540)
    linarith

/-- C8: `_relative_direction` is total on its four labels and partitions the
heading-delta range `[-180, 180)` exactly into forward `[-45, 45]`,
right `(45, 135]`, left `[-135, -45)` and behind (the rest), with no gaps or
overlaps at the boundaries. -/
theorem relative_direction_total_partition (heading bearing : ℚ)
    (h0 : 0 ≤ heading) (h1 : heading < 360) (h2 : 0 ≤ bearing)
    (h3 : bearing < 360) :
    (-180 ≤ headingDelta heading bearing ∧ headingDelta heading bearing < 180) ∧
    (relativeDirection heading bearing = "forward" ∨
      relativeDirection heading bearing = "right" ∨
      relativeDirection heading bearing = "left" ∨
      relativeDirection heading bearing = "behind") ∧
    (relativeDirection heading bearing = "forward" ↔
      -45 ≤ headingDelta heading bearing ∧ headingDelta heading bearing ≤ 45) ∧
    (relativeDirection heading bearing = "right" ↔
      45 < headingDelta heading bearing ∧ headingDelta heading bearing ≤ 135) ∧
    (relativeDirection heading bearing = "left" ↔
      -135 ≤ headingDelta heading bearing ∧
        headingDelta heading bearing < -45) ∧
    (relativeDirection heading bearing = "behind" ↔
      (-180 ≤ headingDelta heading bearing ∧
          headingDelta heading bearing < -135) ∨
        (135 < headingDelta heading bearing ∧
          headingDelta heading bearing < 180)) := by
  obtain ⟨hlo, hhi⟩ := headingDelta_mem heading bearing
  refine ⟨⟨hlo, hhi⟩, ?_⟩
  simp only [relativeDirection]
  split_ifs with c1 c2 c3
  · refine ⟨Or.inl rfl, iff_of_true rfl c1, ?_, ?_, ?_⟩
    · exact iff_of_false (by decide) (fun hr => absurd hr.1 (not_lt.mpr c1.2))
    · exact iff_of_false (by decide) (fun hl => absurd c1.1 (not_le.mpr hl.2))
    · refine iff_of_false (by decide) (fun hb => ?_)
      rcases hb with hb | hb
      · exact absurd c1.1 (not_le.mpr (by linarith [hb.2]))
      · exact absurd hb.1 (not_lt.mpr (by linarith [c1.2]))
  · refine ⟨Or.inr (Or.inl rfl), ?_, iff_of_true rfl c2, ?_, ?_⟩
    · exact iff_of_false (by decide) (fun hf => absurd c2.1 (not_lt.mpr hf.2))
    · exact iff_of_false (by decide) (fun hl => absurd hl.2 (not_lt.mpr (by linarith [c2.1])))
    · refine iff_of_false (by decide) (fun hb => ?_)
      rcases hb with hb | hb
      · exact absurd hb.2 (not_lt.mpr (by linarith [c2.1]))
      · exact absurd c2.2 (not_le.mpr hb.1)
  · refine ⟨Or.inr (Or.inr (Or.inl rfl)), ?_, ?_, iff_of_true rfl c3, ?_⟩
    · exact iff_of_false (by decide) (fun hf => absurd hf.1 (not_le.mpr c3.2))
    · exact iff_of_false (by decide) (fun hr => absurd hr.1 (not_lt.mpr (by linarith [c3.2])))
    · refine iff_of_false (by decide) (fun hb => ?_)
      rcases hb with hb | hb
      · exact absurd c3.1 (not_le.mpr hb.2)
      · exact absurd hb.1 (not_lt.mpr (by linarith [c3.2]))
  · push_neg at c1 c2 c3
    have hb : (-180 ≤ headingDelta heading bearing ∧
        headingDelta heading bearing < -135) ∨
        (135 < headingDelta heading bearing ∧
          headingDelta heading bearing < 180) := by
      rcases le_or_lt (headingDelta heading bearing) 45 with hc | hc
      · left
        refine ⟨hlo, ?_⟩
        by_contra hge
        push_neg at hge
        exact absurd (c1 (c3 hge)) (not_lt.mpr hc)
      · right
        exact ⟨c2 hc, hhi⟩
    refine ⟨Or.inr (Or.inr (Or.inr rfl)), ?_, ?_, ?_, iff_of_true rfl hb⟩
    · refine iff_of_false (by decide) (fun hf => ?_)
      rcases hb with hb | hb
      · linarith [hf.1, hb.2]
      · linarith [hf.2, hb.1]
    · refine iff_of_false (by decide) (fun hr => ?_)
      rcases hb with hb | hb
      · exact absurd hr.1 (not_lt.mpr (by linarith [hb.2]))
      · exact absurd hr.2 (not_le.mpr hb.1)
    · refine iff_of_false (by decide) (fun hl => ?_)
      rcases hb with hb | hb
      · exact absurd hb.2 (not_lt.mpr hl.1)
      · exact absurd hl.2 (not_lt.mpr (by linarith [hb.1]))

/-- Witness for C8 at heading 0, bearing 90: the delta is 90 and the label is
"right". -/
theorem relative_direction_total_partition_witness :
    (0 : ℚ) ≤ 0 ∧
    (relativeDirection 0 90 = "right" ↔
      45 < headingDelta 0 90 ∧ headingDelta 0 90 ≤ 135) :=
  ⟨le_refl 0,
    (relative_direction_total_partition 0 90 (by norm_num) (by norm_num)
      (by norm_num) (by norm_num)).2.2.2.1⟩

/-- Splitting a sample run at a list append. -/
lemma runSamples_append (distFn bearingFn : ℚ → ℚ → ℚ → ℚ → ℚ)
    (s : NavigationSession) (xs ys : List Sample) :
    runSamples distFn bearingFn s (xs ++ ys) =
      ((runSamples distFn bearingFn
          (runSamples distFn bearingFn s xs).1 ys).1,
        (runSamples distFn bearingFn s xs).2 ++
          (runSamples distFn bearingFn
            (runSamples distFn bearingFn s xs).1 ys).2) := by
  induction xs generalizing s with
  | nil => simp [runSamples]
  | cons x xs ih => simp [runSamples, ih]

/-- While every post-grace sample stays at or beyond the early-warning
threshold, the run on the first step is silent and the session unchanged. -/
lemma runSamples_far_phase (distFn bearingFn : ℚ → ℚ → ℚ → ℚ → ℚ)
    (leg0 : Leg) (restLegs : List Leg) (dest : String) (t0 : ℚ) (last : ℤ)
    (e0 : LatLng)
    (hc : 1 < leg0.steps.length)
    (hcur : (leg0.steps.getD 0 ⟨none, none⟩).end_location = some e0)
    (as : List Sample)
    (hgrace : ∀ smp ∈ as, ¬ smp.now - t0 < ROUTE_START_GRACE_SECONDS)
    (hfar : ∀ smp ∈ as,
      TURN_ANNOUNCEMENT_THRESHOLD ≤ distFn smp.lat smp.lng e0.lat e0.lng) :
    runSamples distFn bearingFn
        ⟨some ⟨leg0 :: restLegs⟩, 0, dest, last, some t0⟩ as =
      (⟨some ⟨leg0 :: restLegs⟩, 0, dest, last, some t0⟩,
        as.map fun _ => none) := by
  induction as with
  | nil => simp [runSamples]
  | cons a as ih =>
    have h1 := updateLocation_far_case distFn bearingFn leg0 restLegs dest t0
      a.now a.lat a.lng a.heading 0 last e0 (hgrace a (by simp)) (by omega)
      hcur (hfar a (by simp))
    have h2 := ih (fun smp hs => hgrace smp (by simp [hs]))
      (fun smp hs => hfar smp (by simp [hs]))
    simp [runSamples, h1, h2]

/-- While every post-grace sample sits in the early-warning band after the
warning was already spoken (`lastSpokenIndex = 1`), the run is silent and the
session unchanged. -/
lemma runSamples_inband_phase (distFn bearingFn : ℚ → ℚ → ℚ → ℚ → ℚ)
    (leg0 : Leg) (restLegs : List Leg) (dest : String) (t0 : ℚ) (e0 : LatLng)
    (hc : 1 < leg0.steps.length)
    (hcur : (leg0.steps.getD 0 ⟨none, none⟩).end_location = some e0)
    (cs : List Sample)
    (hgrace : ∀ smp ∈ cs, ¬ smp.now - t0 < ROUTE_START_GRACE_SECONDS)
    (hband : ∀ smp ∈ cs,
      ¬ distFn smp.lat smp.lng e0.lat e0.lng < TURN_NOW_THRESHOLD ∧
        distFn smp.lat smp.lng e0.lat e0.lng < TURN_ANNOUNCEMENT_THRESHOLD) :
    runSamples distFn bearingFn
        ⟨some ⟨leg0 :: restLegs⟩, 0, dest, 1, some t0⟩ cs =
      (⟨some ⟨leg0 :: restLegs⟩, 0, dest, 1, some t0⟩,
        cs.map fun _ => none) := by
  induction cs with
  | nil => simp [runSamples]
  | cons a cs ih =>
    have h1 := updateLocation_warn_repeat_case distFn bearingFn leg0 restLegs
      dest t0 a.now a.lat a.lng a.heading 0 1 e0 (hgrace a (by simp))
      (by omega) hcur (hband a (by simp)).1 (hband a (by simp)).2
      (by norm_num)
    have h2 := ih (fun smp hs => hgrace smp (by simp [hs]))
      (fun smp hs => hband smp (by simp [hs]))
    simp [runSamples, h1, h2]

/-- C1: on a route whose first leg has at least two steps, a post-grace
sample stream whose distances to the first step end pass through the bands
`[45, ∞)`, then `[12, 45)`, then below 12 produces exactly one
"In X meters, …" message (at the first in-band sample), then exactly one
"… Now." message (at the first sample under 12 m), and nothing else for that
step, no matter how many samples fall in each band. -/
theorem nav_one_warning_then_one_now
    (distFn bearingFn : ℚ → ℚ → ℚ → ℚ → ℚ)
    (leg0 : Leg) (restLegs : List Leg) (dest : String) (t0 : ℚ) (e0 : LatLng)
    (hc : 1 < leg0.steps.length)
    (hcur : (leg0.steps.getD 0 ⟨none, none⟩).end_location = some e0)
    (as cs : List Sample) (b e : Sample)
    (hgrace : ∀ smp ∈ as ++ b :: (cs ++ [e]),
      ¬ smp.now - t0 < ROUTE_START_GRACE_SECONDS)
    (hfar : ∀ smp ∈ as,
      TURN_ANNOUNCEMENT_THRESHOLD ≤ distFn smp.lat smp.lng e0.lat e0.lng)
    (hb1 : ¬ distFn b.lat b.lng e0.lat e0.lng < TURN_NOW_THRESHOLD)
    (hb2 : distFn b.lat b.lng e0.lat e0.lng < TURN_ANNOUNCEMENT_THRESHOLD)
    (hcs : ∀ smp ∈ cs,
      ¬ distFn smp.lat smp.lng e0.lat e0.lng < TURN_NOW_THRESHOLD ∧
        distFn smp.lat smp.lng e0.lat e0.lng < TURN_ANNOUNCEMENT_THRESHOLD)
    (he : distFn e.lat e.lng e0.lat e0.lng < TURN_NOW_THRESHOLD) :
    (runSamples distFn bearingFn
        (start_route ⟨leg0 :: restLegs⟩ dest t0) (as ++ b :: (cs ++ [e]))).2 =
      (as.map fun _ => none) ++
        some ("In " ++ toString (pyint (distFn b.lat b.lng e0.lat e0.lng)) ++
          " meters, " ++ stepInstructionText bearingFn
            (leg0.steps.getD 1 ⟨none, none⟩) b.lat b.lng b.heading) ::
        ((cs.map fun _ => none) ++
          [some (stepInstructionText bearingFn
              (leg0.steps.getD 1 ⟨none, none⟩) e.lat e.lng e.heading ++
            " Now.")]) := by
  have hgA : ∀ smp ∈ as, ¬ smp.now - t0 < ROUTE_START_GRACE_SECONDS :=
    fun smp hs => hgrace smp (by simp [hs])
  have hgB : ¬ b.now - t0 < ROUTE_START_GRACE_SECONDS :=
    hgrace b (by simp)
  have hgC : ∀ smp ∈ cs, ¬ smp.now - t0 < ROUTE_START_GRACE_SECONDS :=
    fun smp hs => hgrace smp (by simp [hs])
  have hgE : ¬ e.now - t0 < ROUTE_START_GRACE_SECONDS :=
    hgrace e (by simp)
  have hA := runSamples_far_phase distFn bearingFn leg0 restLegs dest t0 (-1)
    e0 hc hcur as hgA hfar
  have hB := updateLocation_warn_case distFn bearingFn leg0 restLegs dest t0
    b.now b.lat b.lng b.heading 0 (-1) e0 hgB (by omega) hcur hb1 hb2
    (by norm_num)
  have hC := runSamples_inband_phase distFn bearingFn leg0 restLegs dest t0
    e0 hc hcur cs hgC hcs
  have hE := updateLocation_now_case distFn bearingFn leg0 restLegs dest t0
    e.now e.lat e.lng e.heading 0 1 e0 hgE (by omega) hcur he (by norm_num)
  rw [runSamples_append]
  rw [show start_route ⟨leg0 :: restLegs⟩ dest t0 =
    ⟨some ⟨leg0 :: restLegs⟩, 0, dest, -1, some t0⟩ from rfl]
  rw [hA]
  simp only [runSamples]
  rw [hB]
  simp only [Nat.cast_zero, zero_add]
  rw [runSamples_append, hC]
  simp only [runSamples]
  rw [hE]

/-- Witness for C1: a two-step route, one far sample, one warning-band
sample, one repeated in-band sample and one close sample produce exactly
`[none, warning, none, now]`. -/
theorem nav_one_warning_then_one_now_witness :
    (runSamples (fun la _ _ _ => la) (fun _ _ _ _ => 0)
        (start_route ⟨[⟨[⟨some ("s0"), some ⟨0, 0⟩⟩,
            ⟨some ("Turn left"), some ⟨1, 1⟩⟩]⟩]⟩ "Home" 0)
        [⟨20, 100, 0, none⟩, ⟨21, 40, 0, none⟩, ⟨22, 30, 0, none⟩,
          ⟨23, 10, 0, none⟩]).2 =
      [none, some ("In 40 meters, Turn left"), none,
        some ("Turn left Now.")] := by
  have h := nav_one_warning_then_one_now (fun la _ _ _ => la)
    (fun _ _ _ _ => 0)
    ⟨[⟨some ("s0"), some ⟨0, 0⟩⟩, ⟨some ("Turn left"), some ⟨1, 1⟩⟩]⟩ []
    "Home" 0 ⟨0, 0⟩ (by decide) (by decide)
    [⟨20, 100, 0, none⟩] [⟨22, 30, 0, none⟩] ⟨21, 40, 0, none⟩
    ⟨23, 10, 0, none⟩
    (by intro smp hs
        fin_cases hs <;> norm_num [ROUTE_START_GRACE_SECONDS])
    (by intro smp hs
        fin_cases hs <;> norm_num [TURN_ANNOUNCEMENT_THRESHOLD])
    (by norm_num [TURN_NOW_THRESHOLD])
    (by norm_num [TURN_ANNOUNCEMENT_THRESHOLD])
    (by intro smp hs
        fin_cases hs <;>
          norm_num [TURN_NOW_THRESHOLD, TURN_ANNOUNCEMENT_THRESHOLD])
    (by norm_num [TURN_NOW_THRESHOLD])
  exact h.trans (by decide)

/-- If the threshold logic yields `(s, none)` for the stored route, so does
the full `update_location` (the grace window also yields `(s, none)`). -/
lemma updateLocation_none_of_body_none
    (distFn bearingFn : ℚ → ℚ → ℚ → ℚ → ℚ) (s : NavigationSession)
    (now lat lng : ℚ) (heading : Option ℚ) (r : Route)
    (h : s.active_route = some r)
    (hbody : updateLocationBody distFn bearingFn s r lat lng heading =
      (s, none)) :
    updateLocation distFn bearingFn s now lat lng heading = (s, none) := by
  unfold updateLocation
  rw [h]
  cases hrs : s.route_started_at with
  | none => simpa using hbody
  | some t0 =>
    by_cases hg : now - t0 < ROUTE_START_GRACE_SECONDS <;>
      simp [hg, hbody]

/-- The threshold logic reads only the first leg and the cursor, spoken-index
and destination fields: two sessions agreeing on those fields, with routes
sharing the same first leg, produce the same message and the same updated
cursor and spoken index. -/
lemma updateLocationBody_first_leg_agree
    (distFn bearingFn : ℚ → ℚ → ℚ → ℚ → ℚ) (s1 s2 : NavigationSession)
    (lat lng : ℚ) (heading : Option ℚ) (leg0 : Leg) (r1 r2 : Route)
    (rest1 rest2 : List Leg)
    (hidx : s1.current_step_index = s2.current_step_index)
    (hlast : s1.last_instruction_spoken_index =
      s2.last_instruction_spoken_index)
    (hdest : s1.destination = s2.destination)
    (hr1 : r1.legs = leg0 :: rest1) (hr2 : r2.legs = leg0 :: rest2) :
    (updateLocationBody distFn bearingFn s1 r1 lat lng heading).2 =
      (updateLocationBody distFn bearingFn s2 r2 lat lng heading).2 ∧
    (updateLocationBody distFn bearingFn s1 r1 lat lng
        heading).1.current_step_index =
      (updateLocationBody distFn bearingFn s2 r2 lat lng
        heading).1.current_step_index ∧
    (updateLocationBody distFn bearingFn s1 r1 lat lng
        heading).1.last_instruction_spoken_index =
      (updateLocationBody distFn bearingFn s2 r2 lat lng
        heading).1.last_instruction_spoken_index := by
  unfold updateLocationBody
  rw [hr1, hr2]
  simp only
  rw [hidx, hlast, hdest]
  cases hend : (leg0.steps.getD s2.current_step_index
      ⟨none, none⟩).end_location with
  | none => split_ifs <;> simp [hidx, hlast]
  | some e =>
    simp only [hend]
    split_ifs <;> simp [hidx, hlast, hdest]

/-- C10: `update_location` reads only the first leg of the active route —
two routes with the same first leg give the same message, cursor and spoken
index — and a route with no legs, a first leg with no steps, or a current
step without an end location all yield `(s, none)` for every sample, without
error; legs after the first are never consulted. -/
theorem update_location_first_leg_only
    (distFn bearingFn : ℚ → ℚ → ℚ → ℚ → ℚ)
    (s : NavigationSession) (now lat lng : ℚ) (heading : Option ℚ)
    (leg0 : Leg) (rest1 rest2 : List Leg) :
    (s.active_route = some ⟨[]⟩ →
      updateLocation distFn bearingFn s now lat lng heading = (s, none)) ∧
    (s.active_route = some ⟨leg0 :: rest1⟩ → leg0.steps = [] →
      updateLocation distFn bearingFn s now lat lng heading = (s, none)) ∧
    (s.active_route = some ⟨leg0 :: rest1⟩ →
      s.current_step_index < leg0.steps.length →
      (leg0.steps.getD s.current_step_index ⟨none, none⟩).end_location =
        none →
      updateLocation distFn bearingFn s now lat lng heading = (s, none)) ∧
    ((updateLocation distFn bearingFn
        { s with active_route := some ⟨leg0 :: rest1⟩ }
        now lat lng heading).2 =
      (updateLocation distFn bearingFn
        { s with active_route := some ⟨leg0 :: rest2⟩ }
        now lat lng heading).2 ∧
      (updateLocation distFn bearingFn
        { s with active_route := some ⟨leg0 :: rest1⟩ }
        now lat lng heading).1.current_step_index =
      (updateLocation distFn bearingFn
        { s with active_route := some ⟨leg0 :: rest2⟩ }
        now lat lng heading).1.current_step_index ∧
      (updateLocation distFn bearingFn
        { s with active_route := some ⟨leg0 :: rest1⟩ }
        now lat lng heading).1.last_instruction_spoken_index =
      (updateLocation distFn bearingFn
        { s with active_route := some ⟨leg0 :: rest2⟩ }
        now lat lng heading).1.last_instruction_spoken_index) := by
  refine ⟨?_, ?_, ?_, ?_⟩
  · intro h
    exact updateLocation_none_of_body_none distFn bearingFn s now lat lng
      heading ⟨[]⟩ h (by simp [updateLocationBody])
  · intro h hsteps
    exact updateLocation_none_of_body_none distFn bearingFn s now lat lng
      heading ⟨leg0 :: rest1⟩ h (by simp [updateLocationBody, hsteps])
  · intro h hlt hend
    refine updateLocation_none_of_body_none distFn bearingFn s now lat lng
      heading ⟨leg0 :: rest1⟩ h ?_
    have hge : ¬ s.current_step_index ≥ leg0.steps.length := by omega
    have hend2 : ((leg0.steps[s.current_step_index]?).getD
        ⟨none, none⟩).end_location = none := by
      simpa [List.getD] using hend
    simp [updateLocationBody, hge, hend2]
  · have hagree := updateLocationBody_first_leg_agree distFn bearingFn
      { s with active_route := some ⟨leg0 :: rest1⟩ }
      { s with active_route := some ⟨leg0 :: rest2⟩ } lat lng heading leg0
      ⟨leg0 :: rest1⟩ ⟨leg0 :: rest2⟩ rest1 rest2 rfl rfl rfl rfl rfl
    unfold updateLocation
    simp only
    cases hrs : s.route_started_at with
    | none =>
      rw [hrs] at hagree
      simpa using hagree
    | some t0 =>
      rw [hrs] at hagree
      by_cases hg : now - t0 < ROUTE_START_GRACE_SECONDS
      · simp [hg]
      · simpa [hg] using hagree

/-- Witness for C10 at a session whose current step has no end location. -/
theorem update_location_first_leg_only_witness :
    updateLocation (fun _ _ _ _ => 0) (fun _ _ _ _ => 0)
        ⟨some ⟨[⟨[⟨some ("s0"), none⟩]⟩]⟩, 0, "Home", -1, some 0⟩
        20 1 2 none =
      (⟨some ⟨[⟨[⟨some ("s0"), none⟩]⟩]⟩, 0, "Home", -1, some 0⟩, none) :=
  (update_location_first_leg_only (fun _ _ _ _ => 0) (fun _ _ _ _ => 0)
      ⟨some ⟨[⟨[⟨some ("s0"), none⟩]⟩]⟩, 0, "Home", -1, some 0⟩ 20 1 2 none
      ⟨[⟨some ("s0"), none⟩]⟩ [] []).2.2.1 rfl (by decide) rfl

end BlindSpot
